import Mathlib

/-!
Verification development for the receipt-processing agent.

The Python sources embedded here are `tools.py` (the tools
`validate_extracted_data` and `manage_processed_receipt_files`) and
`agent_controller.py` (the LangGraph workflow wiring, the router
`route_human_validation_result`, and the node functions).

Modelling conventions:
* JSON values are the inductive `Json`; Python dicts are association
  lists with unique-key update semantics (`jget` / `jset`, mirroring
  `dict.get` / `dict.__setitem__` of Python 3.7+, which updates an
  existing key in place and appends a new key at the end).
* Python truthiness (`if not x`) is `pyTruthy`.
* `str(x)` / f-string formatting is `pyStr`; `repr` of nested
  containers is `pyRepr` (string-escape subtleties of `repr` are not
  reproduced; no claim depends on them).
* `str.replace(' ', '')` and `str.replace(',', '')` with an empty
  replacement remove every occurrence of a single character, which is
  modelled as a character filter.  `str.strip()` is `String.trim`
  (Python also strips a few rarer Unicode whitespace characters; the
  claims only involve ASCII whitespace).
* `datetime.strptime` for the four formats used by the code is
  modelled faithfully after CPython's `_strptime`: each directive is a
  regular-expression alternation matched with left-to-right preference
  and backtracking (`%Y` ↦ `\d\d\d\d`, `%m` ↦ `1[0-2]|0[1-9]|[1-9]`,
  `%d` ↦ `3[01]|[12]\d|0[1-9]|[1-9]`), the "unconverted data remains"
  check runs after the regex match (and does not cause backtracking),
  and the `datetime` constructor then rejects out-of-range calendar
  dates (`day is out of range for month`, year 0).  Digits are ASCII;
  Python's Unicode digit classes are outside the modelled character
  set, as are Unicode letters in `str.isalnum` (non-ASCII characters
  are treated as alphanumeric, which matches the letter-only vendor
  strings that occur here).
* The filesystem touched by `manage_processed_receipt_files` is the
  explicit state `FS`: a list of existing file paths, the content of
  the master JSON log, and failure-injection flags for the three
  fallible effects (`shutil.copy`, the log write, `shutil.move`).
  `uuid.uuid4().hex[:6]` is an explicit input `random_string`.  The
  log content (`LogContent`) distinguishes a JSON object, valid JSON
  whose top level is not an object, content on which `json.load`
  raises `json.JSONDecodeError`, and undecodable bytes, because the
  code treats the four differently: only the `JSONDecodeError` case is
  caught and self-healed; the other two failure modes escape to the
  blanket `except` of line 371.
-/

namespace ReceiptAgent

/-- JSON values as produced by `json.loads` (floats do not occur in the
claims and are not modelled). -/
inductive Json where
  | null : Json
  | bool : Bool → Json
  | num : Int → Json
  | str : String → Json
  | arr : List Json → Json
  | obj : List (String × Json) → Json

/-- A parsed JSON object: a Python dict with string keys. -/
abbrev Data := List (String × Json)

/-- `d.get(k)` / `d[k]` lookup: first binding of the key. -/
def jget (l : Data) (k : String) : Option Json :=
  match l with
  | [] => none
  | (k', v) :: t => if k' = k then some v else jget t k

/-- `d.get(k, default)`. -/
def pyGetD (l : Data) (k : String) (default : Json) : Json :=
  (jget l k).getD default

/-- `k in d`. -/
def hasKey (l : Data) (k : String) : Bool :=
  (jget l k).isSome

/-- `d[k] = v`: update the existing binding in place, else append. -/
def jset (l : Data) (k : String) (v : Json) : Data :=
  if l.any (fun kv => kv.1 = k) then
    l.map (fun kv => if kv.1 = k then (k, v) else kv)
  else
    l ++ [(k, v)]

/-- Python truthiness of a JSON value. -/
def pyTruthy : Json → Bool
  | .null => false
  | .bool b => b
  | .num n => !(n == 0)
  | .str s => !(s == "")
  | .arr xs => !xs.isEmpty
  | .obj fs => !fs.isEmpty

/-- Truthiness of `d.get(k)`: a missing key yields Python `None`,
which is falsy. -/
def pyFalsyOpt : Option Json → Bool
  | none => true
  | some v => !pyTruthy v

mutual

/-- Python `repr` of a JSON value (quotes are rendered as ASCII
apostrophes like CPython; escape sequences inside strings are not
reproduced). -/
def pyRepr : Json → String
  | .null => "None"
  | .bool true => "True"
  | .bool false => "False"
  | .num n => toString n
  | .str s => "\x27" ++ s ++ "\x27"
  | .arr xs => "[" ++ pyReprElems xs ++ "]"
  | .obj fs => "\x7b" ++ pyReprEntries fs ++ "\x7d"

/-- `repr` of the comma-separated elements of a Python list. -/
def pyReprElems : List Json → String
  | [] => ""
  | [x] => pyRepr x
  | x :: xs => pyRepr x ++ ", " ++ pyReprElems xs

/-- `repr` of the comma-separated entries of a Python dict. -/
def pyReprEntries : List (String × Json) → String
  | [] => ""
  | [(k, v)] => "\x27" ++ k ++ "\x27: " ++ pyRepr v
  | (k, v) :: xs => "\x27" ++ k ++ "\x27: " ++ pyRepr v ++ ", " ++ pyReprEntries xs

end

/-- Python `str()` (also the semantics of an f-string field). -/
def pyStr : Json → String
  | .str s => s
  | v => pyRepr v

/-! ### The `datetime.strptime` model

`validate_extracted_data` tries the formats `%Y年%m月%d日`, `%Y/%m/%d`,
`%Y-%m-%d`, `%Y%m%d` in order, taking the first that parses. -/

/-- Numeric value of an ASCII digit character. -/
def charDigitVal (c : Char) : Nat := c.toNat - 48

/-- The ASCII digit character for `n ≤ 9`. -/
def digitChar : Nat → Char
  | 0 => '0' | 1 => '1' | 2 => '2' | 3 => '3' | 4 => '4'
  | 5 => '5' | 6 => '6' | 7 => '7' | 8 => '8' | _ => '9'

/-- Python `str.strip()`: drop whitespace from both ends (Python also
strips a few rarer Unicode whitespace characters, which do not occur
in the data considered). -/
def pyStrip (s : String) : String :=
  String.mk (((s.data.dropWhile Char.isWhitespace).reverse.dropWhile
    Char.isWhitespace).reverse)

/-- `%Y` ↦ regex `\d\d\d\d`: exactly four digits. -/
def parseYear4 : List Char → Option (Nat × List Char)
  | c1 :: c2 :: c3 :: c4 :: rest =>
    if c1.isDigit ∧ c2.isDigit ∧ c3.isDigit ∧ c4.isDigit then
      some (((charDigitVal c1 * 10 + charDigitVal c2) * 10 + charDigitVal c3) * 10
              + charDigitVal c4, rest)
    else none
  | _ => none

/-- The single-character alternative `[1-9]` shared by `%m` and `%d`. -/
def oneDigit19 : List Char → Option (Nat × List Char)
  | c :: rest => if c.isDigit ∧ c ≠ '0' then some (charDigitVal c, rest) else none
  | _ => none

/-- The two-character alternatives `1[0-2]|0[1-9]` of `%m` (tried, in
regex order, before the one-character alternative `[1-9]`). -/
def month2 : List Char → Option (Nat × List Char)
  | c1 :: c2 :: rest =>
    if c1 = '1' ∧ (c2 = '0' ∨ c2 = '1' ∨ c2 = '2') then
      some (10 + charDigitVal c2, rest)
    else if c1 = '0' ∧ c2.isDigit ∧ c2 ≠ '0' then
      some (charDigitVal c2, rest)
    else none
  | _ => none

/-- The two-character alternatives `3[01]|[12]\d|0[1-9]` of `%d`. -/
def day2 : List Char → Option (Nat × List Char)
  | c1 :: c2 :: rest =>
    if c1 = '3' ∧ (c2 = '0' ∨ c2 = '1') then
      some (30 + charDigitVal c2, rest)
    else if (c1 = '1' ∨ c1 = '2') ∧ c2.isDigit then
      some (10 * charDigitVal c1 + charDigitVal c2, rest)
    else if c1 = '0' ∧ c2.isDigit ∧ c2 ≠ '0' then
      some (charDigitVal c2, rest)
    else none
  | _ => none

/-- One directive or literal of a strptime format string. -/
inductive FmtTok where
  | year : FmtTok
  | month : FmtTok
  | day : FmtTok
  | lit : Char → FmtTok
  deriving Repr, DecidableEq

/-- The regex-matching phase of `strptime`: directives are matched with
left-to-right alternative preference and backtracking on a later
mismatch; a successful match may leave unconsumed input (the leftover
is returned and checked by the caller, as `_strptime` checks
`found.end()` only after the match). -/
def goFmt : List FmtTok → List Char → Nat → Nat → Nat →
    Option ((Nat × Nat × Nat) × List Char)
  | [], cs, y, m, d => some ((y, m, d), cs)
  | .lit c :: ts, cs, y, m, d =>
    match cs with
    | c' :: rest => if c' = c then goFmt ts rest y m d else none
    | [] => none
  | .year :: ts, cs, y, m, d =>
    match parseYear4 cs with
    | some (v, rest) => goFmt ts rest v m d
    | none => none
  | .month :: ts, cs, y, m, d =>
    (match month2 cs with
     | some (v, rest) => goFmt ts rest y v d
     | none => none) <|>
    (match oneDigit19 cs with
     | some (v, rest) => goFmt ts rest y v d
     | none => none)
  | .day :: ts, cs, y, m, d =>
    (match day2 cs with
     | some (v, rest) => goFmt ts rest y m v
     | none => none) <|>
    (match oneDigit19 cs with
     | some (v, rest) => goFmt ts rest y m v
     | none => none)

/-- Gregorian leap year, as `datetime` implements it. -/
def isLeapYear (y : Nat) : Bool :=
  y % 4 = 0 ∧ (y % 100 ≠ 0 ∨ y % 400 = 0)

/-- Days in a month, as the `datetime` constructor checks them. -/
def daysInMonth (y m : Nat) : Nat :=
  if m = 2 then (if isLeapYear y then 29 else 28)
  else if m = 4 ∨ m = 6 ∨ m = 9 ∨ m = 11 then 30
  else 31

/-- The checks of the `datetime` constructor (`MINYEAR = 1`; the month
and day lower bounds are already guaranteed by the regex). -/
def datetimeOk (y m d : Nat) : Bool :=
  1 ≤ y ∧ 1 ≤ m ∧ m ≤ 12 ∧ 1 ≤ d ∧ d ≤ daysInMonth y m

/-- `datetime.strptime(s, fmt)` for one of the four date formats:
regex match, "unconverted data remains" check, constructor check.
`none` is the `ValueError` that makes the validation loop try the next
format. -/
def strptimeDate (toks : List FmtTok) (s : String) : Option (Nat × Nat × Nat) :=
  match goFmt toks s.data 1900 1 1 with
  | some (ymd, leftover) =>
    if leftover = [] ∧ datetimeOk ymd.1 ymd.2.1 ymd.2.2 then some ymd else none
  | none => none

/-- Format token lists for the four formats tried by the validator. -/
inductive DateFmt where
  | kanji : DateFmt
  | slash : DateFmt
  | dash : DateFmt
  | plain : DateFmt
  deriving Repr, DecidableEq

/-- The strptime token list of each supported format. -/
def fmtToks : DateFmt → List FmtTok
  | .kanji => [.year, .lit '年', .month, .lit '月', .day, .lit '日']
  | .slash => [.year, .lit '/', .month, .lit '/', .day]
  | .dash => [.year, .lit '-', .month, .lit '-', .day]
  | .plain => [.year, .month, .day]

/-- The format loop of the validator: try the four formats in source
order, first success wins. -/
def parseAnyDate (s : String) : Option (Nat × Nat × Nat) :=
  strptimeDate (fmtToks .kanji) s <|> strptimeDate (fmtToks .slash) s <|>
  strptimeDate (fmtToks .dash) s <|> strptimeDate (fmtToks .plain) s

/-- `date_str.replace(' ', '')`: remove every ASCII space. -/
def stripSpaces (s : String) : String :=
  String.mk (s.data.filter (fun c => c ≠ ' '))

/-- Two-digit zero-padded rendering (`strftime` `%m` / `%d`). -/
def pad2c (n : Nat) : List Char :=
  [digitChar (n / 10 % 10), digitChar (n % 10)]

/-- Four-digit zero-padded rendering (`strftime` `%Y`, as documented
for Python's `datetime.strftime`). -/
def pad4c (n : Nat) : List Char :=
  [digitChar (n / 1000 % 10), digitChar (n / 100 % 10), digitChar (n / 10 % 10),
   digitChar (n % 10)]

/-- `parsed_date.strftime("%Y%m%d")`: the canonical normalized date. -/
def canonYMD (y m d : Nat) : String :=
  String.mk (pad4c y ++ (pad2c m ++ pad2c d))

/-- Spec-side definition: the canonical (zero-padded) rendering of a
calendar date in each supported input format, used to state what a
"well-formed date in a supported format" is. -/
def renderChars : DateFmt → Nat → Nat → Nat → List Char
  | .kanji, y, m, d => pad4c y ++ '年' :: (pad2c m ++ '月' :: (pad2c d ++ ['日']))
  | .slash, y, m, d => pad4c y ++ '/' :: (pad2c m ++ '/' :: pad2c d)
  | .dash, y, m, d => pad4c y ++ '-' :: (pad2c m ++ '-' :: pad2c d)
  | .plain, y, m, d => pad4c y ++ (pad2c m ++ pad2c d)

/-- Spec-side: string form of `renderChars`. -/
def renderYMD (f : DateFmt) (y m d : Nat) : String :=
  String.mk (renderChars f y m d)

/-- Spec-side: a structurally valid calendar date with a four-digit
year, as the spec's `YYYY…` format names require. -/
def validDate (y m d : Nat) : Prop :=
  1 ≤ y ∧ y ≤ 9999 ∧ 1 ≤ m ∧ m ≤ 12 ∧ 1 ≤ d ∧ d ≤ daysInMonth y m

instance (y m d : Nat) : Decidable (validDate y m d) := by
  unfold validDate; infer_instance

/-! ### `validate_extracted_data` (tools.py, lines 227-295)

The tool parses its JSON-string input (`none` models a
`json.JSONDecodeError`), then runs four independent checks that append
to one `errors` list, mutating the dict in place for the date and
amount normalizations.  Accessing `.get` on a non-dict `相手先` value
raises an uncaught `AttributeError` (`raisedError` below). -/

/-- The date check (lines 241-260).  Returns the error lines it
contributes and the (possibly date-normalized) dict.  A truthy
non-string date raises `AttributeError` inside the wrapping
`try`/`except Exception`, producing the "unexpected format" line. -/
def dateSection (data : Data) : List String × Data :=
  let dv := jget data "日付"
  if pyFalsyOpt dv then (["日付 (Date) is missing."], data)
  else
    match dv with
    | some (.str s) =>
      match parseAnyDate (stripSpaces s) with
      | some (y, m, d) => ([], jset data "日付" (.str (canonYMD y m d)))
      | none =>
        (["日付 \x27" ++ s ++
            "\x27 は認識される YYYYMMDD、YYYY/MM/DD、または YYYY-MM-DD 形式ではありません。"],
         data)
    | some v =>
      (["日付 \x27" ++ pyStr v ++ "\x27 は予期しない形式であるか無効です。"], data)
    | none => ([], data)

/-- `str(data.get("金額", "")).replace(",", "").strip()` (line 263). -/
def amountString (data : Data) : String :=
  pyStrip (String.mk ((pyStr (pyGetD data "金額" (.str ""))).data.filter (fun c => c ≠ ',')))

/-- The amount check (lines 262-269): empty after coercion is a
missing-amount defect; anything failing `re.fullmatch(r'\d+', ·)` is a
non-numeric defect; otherwise the dict stores the stripped digits. -/
def amountSection (data : Data) : List String × Data :=
  let s := amountString data
  if s = "" then (["金額は抽出されていません。ファイルを確認してください。"], data)
  else if ¬ (s.data.all Char.isDigit) then
    (["金額 \x27" ++ pyStr ((jget data "金額").getD .null) ++
        "\x27 は純粋な数値ではありません。"], data)
  else ([], jset data "金額" (.str s))

/-- The vendor check (lines 272-275).  `none` models the uncaught
`AttributeError` of `vendor_obj.get` when `相手先` holds a non-dict
value; otherwise the contributed error lines are returned. -/
def vendorSection (data : Data) : Option (List String) :=
  match pyGetD data "相手先" (.obj []) with
  | .obj vf =>
    let vn := jget vf "名前"
    let bad :=
      pyFalsyOpt vn ||
      (match vn with
       | some (.str s) => pyStrip s = ""
       | _ => true)
    some (if bad then ["相手先が抽出されていません。ファイルを確認してください。"] else [])
  | _ => none

/-- The registration-number check (lines 277-279). -/
def regSection (data : Data) : List String :=
  if pyTruthy (pyGetD data "登録番号" (.str "")) then []
  else ["登録番号が抽出されていません。ファイルを確認してください。"]

/-- Result of `validate_extracted_data`:
`invalidInput` ↦ `"ERROR: Input is not a valid JSON string for validation."`,
`rejected errs` ↦ `"ERROR: " + "\n".join(errs)`,
`accepted d` ↦ `"OK:" + json.dumps(d)`,
`raisedError` ↦ an uncaught exception escaping the tool. -/
inductive VerdictR where
  | invalidInput : VerdictR
  | rejected : List String → VerdictR
  | accepted : Data → VerdictR
  | raisedError : VerdictR

/-- `"\n".join(errors)`. -/
def joinLines : List String → String
  | [] => ""
  | [x] => x
  | x :: xs => x ++ "\n" ++ joinLines xs

/-- The string returned for a rejection (line 292):
`"ERROR: " + "\n".join(errors)`. -/
def rejectedMessage (errs : List String) : String :=
  "ERROR: " ++ joinLines errs

/-- `validate_extracted_data` over the parsed input: the four checks
run in source order, every defect is appended to one list, and the
verdict is `rejected` exactly when that list is non-empty. -/
def validate_extracted_data (input : Option Data) : VerdictR :=
  match input with
  | none => .invalidInput
  | some data =>
    let d := dateSection data
    let a := amountSection d.2
    match vendorSection a.2 with
    | none => .raisedError
    | some vendorErrs =>
      let errors := d.1 ++ a.1 ++ vendorErrs ++ regSection a.2
      if errors.isEmpty then .accepted a.2 else .rejected errors

/-- The defect list of a rejection (empty for the other verdicts). -/
def rejectedErrors : VerdictR → List String
  | .rejected errs => errs
  | _ => []

/-! ### The workflow graph (agent_controller.py)

`GraphState` (lines 62-73) with the node and router functions the
claims refer to.  The results of external tool invocations are
explicit inputs (`Except` distinguishes a raised exception, caught by
the node's `except` clause, from a returned string). -/

/-- Python `str.startswith`. -/
def pyStartsWith (s pre : String) : Bool :=
  pre.data.isPrefixOf s.data

/-- The LangGraph state dict; absent keys are `none`. -/
structure GState where
  pdf_path : String := ""
  image_paths : List String := []
  extracted_data : Option String := none
  validated_data : Option String := none
  error_message : Option String := none
  processed_status : Option String := none

/-- `call_validate_data` (lines 146-177); `toolOutcome` is the result
of `validate_extracted_data.invoke` (`.error` models a raised
exception).  Both the `ERROR:`-prefixed and the `OK:` results are
stored in `validated_data` unchanged (the two source branches are
identical). -/
def call_validate_data (st : GState) (toolOutcome : Except String String) : GState :=
  if st.extracted_data.getD "" = "" then
    { st with error_message := some "No data available for validation.",
              processed_status := some "FAILED" }
  else
    match toolOutcome with
    | .error e =>
      { st with error_message := some ("Validate data failed: " ++ e),
                processed_status := some "FAILED" }
    | .ok result =>
      if pyStartsWith result "ERROR:" then { st with validated_data := some result }
      else { st with validated_data := some result }

/-- `route_human_validation_result` (lines 319-327): `manage_files`
iff `validated_data` is truthy and starts with `"APPROVED:"`. -/
def route_human_validation_result (st : GState) : String :=
  if st.validated_data.getD "" ≠ "" ∧ pyStartsWith (st.validated_data.getD "") "APPROVED:" then
    "manage_files"
  else
    "request_review"

/-- `call_manage_files` (lines 220-271); `parseOk` is whether
`json.loads` succeeds on the `APPROVED:` payload and `toolOutcome` the
result of `manage_processed_receipt_files.invoke`. -/
def call_manage_files (st : GState) (parseOk : Bool)
    (toolOutcome : Except String String) : GState :=
  let vd := st.validated_data.getD ""
  if vd = "" ∨ ¬ pyStartsWith vd "APPROVED:" then
    { st with error_message := some "Invalid validated data for file management.",
              processed_status := some "FAILED" }
  else if ¬ parseOk then
    { st with error_message := some "Validated data is not valid JSON",
              processed_status := some "FAILED" }
  else
    match toolOutcome with
    | .error e =>
      { st with error_message := some ("Manage files failed: " ++ e),
                processed_status := some "FAILED" }
    | .ok result =>
      if pyStartsWith result "ERROR:" then
        { st with error_message := some result, processed_status := some "FAILED" }
      else
        { st with processed_status := some "SUCCESS" }

/-- The unconditional edges added to the `StateGraph`
(lines 344-346, 370-371); `"__end__"` is LangGraph's `END`. -/
def workflowEdges : List (String × String) :=
  [("extract_images", "extract_data"),
   ("extract_data", "validate_data"),
   ("validate_data", "human_validation"),
   ("manage_files", "__end__"),
   ("request_review", "__end__")]

/-- The successor of a node for a given state: an unconditional edge
if one was added, otherwise the conditional edges of
`human_validation` (lines 360-367) through its router. -/
def nextAfter (node : String) (st : GState) : String :=
  match workflowEdges.lookup node with
  | some nxt => nxt
  | none =>
    if node = "human_validation" then route_human_validation_result st
    else "__end__"

/-! ### `manage_processed_receipt_files` (tools.py, lines 299-372) -/

/-- What the master JSON log file holds, split by how lines 348-358
treat it: a JSON object (a Python dict), valid JSON whose top-level
value is not an object (`json.load` succeeds but the keyed assignment
of line 358 raises `TypeError`), content on which `json.load` raises
`json.JSONDecodeError` (the only exception the inner handler catches),
or bytes that are not decodable text (`json.load` raises
`UnicodeDecodeError`, which is not a `JSONDecodeError`). -/
inductive LogContent where
  | valid : List (String × Json) → LogContent
  | nonDict : LogContent
  | corrupt : LogContent
  | undecodable : LogContent

/-- The filesystem state threaded through the tool: the set of
existing file paths, the master log file (`none` = does not exist),
and failure-injection flags for the three fallible effects inside the
`try` block (`shutil.copy`, the `json.dump` write, `shutil.move`). -/
structure FS where
  files : List String
  log : Option LogContent
  copyRaises : Bool
  writeRaises : Bool
  moveRaises : Bool

/-- Tool outcome: the returned `SUCCESS:`/`ERROR:` string, or an
exception raised outside the `try` block (the vendor lines 318-319 run
before it and can raise `AttributeError`/`TypeError`). -/
inductive ManageResult where
  | success : String → ManageResult
  | error : String → ManageResult
  | raised : String → ManageResult

/-- Whether the tool reported success. -/
def isSuccess : ManageResult → Bool
  | .success _ => true
  | _ => false

/-- Whether the tool returned an `ERROR:` string. -/
def isError : ManageResult → Bool
  | .error _ => true
  | _ => false

/-- `os.path.join` for the POSIX paths used here. -/
def pjoin (dir name : String) : String := dir ++ "/" ++ name

/-- `os.path.basename`: the part after the last separator. -/
def osBasename (p : String) : String :=
  String.mk ((p.data.reverse.takeWhile (fun c => c ≠ '/')).reverse)

/-- Model of Python's `str.isalnum` character test: ASCII
alphanumerics, and every non-ASCII character (Unicode letters such as
the kanji of `不明` are alphanumeric in Python; non-letter non-ASCII
characters do not occur in the vendor strings considered). -/
def pyIsAlnum (c : Char) : Bool :=
  c.isAlphanum || 128 ≤ c.toNat

/-- Line 319: `"".join(c for c in vendor_name if c.isalnum() or c in
(' ', '_', '-')).strip()`. -/
def sanitizeVendor (s : String) : String :=
  pyStrip (String.mk (s.data.filter (fun c => pyIsAlnum c || c = ' ' || c = '_' || c = '-')))

/-- Lines 318-321: extract, sanitize (falling back to `"不明"` when the
key is absent or the sanitized name is empty) and truncate the vendor
name.  `none` models the uncaught exception when `相手先` holds a
non-dict value or `名前` holds a truthy non-string value (a `名前`
holding a list of strings would actually be joined by Python; that
corner occurs in no claim and is not modelled). -/
def vendorFromData (data : Data) : Option String :=
  match pyGetD data "相手先" (.obj []) with
  | .obj vf =>
    match pyGetD vf "名前" (.str "不明") with
    | .str s =>
      let v := sanitizeVendor s
      let v := if v = "" then "不明" else v
      some (if v.length > 50 then v.take 50 else v)
    | _ => none
  | _ => none

/-- Line 328: `f"{date}_{amount}_{vendor_name_sanitized}"`. -/
def filingBase (data : Data) (vendor : String) : String :=
  pyStr ((jget data "日付").getD .null) ++ "_" ++
  pyStr ((jget data "金額").getD .null) ++ "_" ++ vendor

/-- The candidate destination path with collision counter `k`
(`k = 0` is the uncounted name of line 329). -/
def destCandidate (folder base rand : String) (k : Nat) : String :=
  if k = 0 then pjoin folder (base ++ "_" ++ rand ++ ".pdf")
  else pjoin folder (base ++ "_" ++ rand ++ "_" ++ toString k ++ ".pdf")

/-- The `while os.path.exists(destination_path)` loop of lines
333-336, with fuel: the Python loop terminates because the candidate
names are pairwise distinct and the filesystem is finite, so
`files.length + 1` candidates always include a free one. -/
def firstFreeIdx (files : List String) (folder base rand : String) :
    Nat → Nat → Nat
  | 0, k => k
  | fuel + 1, k =>
    if (destCandidate folder base rand k) ∈ files then
      firstFreeIdx files folder base rand fuel (k + 1)
    else k

/-- The destination path chosen by the collision loop. -/
def resolveDest (files : List String) (folder base rand : String) : String :=
  destCandidate folder base rand (firstFreeIdx files folder base rand (files.length + 1) 0)

/-- Lines 346-358: obtain the in-memory dict that the keyed assignment
`master_data[new_pdf_name] = extracted_data` of line 358 updates.  A
missing file leaves `master_data = {}`; a `json.JSONDecodeError` is
caught and also leaves `{}` (the self-healing warning path of lines
352-354).  `none` models the two exceptions that instead escape to the
blanket `except` of line 371: `UnicodeDecodeError` from undecodable
bytes at `json.load`, and the `TypeError` of line 358 itself when the
file parsed to valid JSON that is not a dict. -/
def loadMaster : Option LogContent → Option (List (String × Json))
  | none => some []
  | some (.valid m) => some m
  | some .corrupt => some []
  | some .nonDict => none
  | some .undecodable => none

/-- The `except` message of line 372 (the Python message ends with the
text of the caught exception, which is not modelled). -/
def manageFailMsg (originalFilename : String) : String :=
  "ERROR: Failed to copy or update log for \x27" ++ originalFilename ++ "\x27"

/-- `manage_processed_receipt_files`.  Inputs: the filesystem, the
`uuid.uuid4().hex[:6]` disambiguator, the original path, the parsed
extracted data (`none` models a `json.JSONDecodeError`), and the three
directory/log-path arguments.  Returns the tool outcome and the new
filesystem; note that effects already performed persist when a later
step raises (one `try` block covers copy, log update and move). -/
def manage_processed_receipt_files (fs : FS) (random_string : String)
    (original_pdf_path : String) (parsed : Option Data)
    (output_pdf_folder master_json_file_path success_pdf_folder : String) :
    ManageResult × FS :=
  match parsed with
  | none =>
    (.error "ERROR: manage_processed_receipt_files received invalid JSON string", fs)
  | some extracted_data =>
    if ¬ (hasKey extracted_data "日付" && hasKey extracted_data "金額") then
      (.error "ERROR: Extracted data missing essential fields (日付 or 金額) for renaming.",
       fs)
    else
      match vendorFromData extracted_data with
      | none => (.raised "vendor name extraction raised", fs)
      | some vendor =>
        let original_filename := osBasename original_pdf_path
        let base := filingBase extracted_data vendor
        let new_pdf_name := base ++ "_" ++ random_string ++ ".pdf"
        let destination_path := resolveDest fs.files output_pdf_folder base random_string
        if ¬ (original_pdf_path ∈ fs.files) then
          (.error ("ERROR: Original PDF \x27" ++ original_pdf_path ++
                     "\x27 not found for copying."), fs)
        else if fs.copyRaises then (.error (manageFailMsg original_filename), fs)
        else
          let fs1 := { fs with files := destination_path :: fs.files }
          match loadMaster fs1.log with
          | none => (.error (manageFailMsg original_filename), fs1)
          | some master0 =>
          let master1 :=
            jset master0 new_pdf_name
              (.obj (jset extracted_data "元名" (.str original_filename)))
          if fs.writeRaises then (.error (manageFailMsg original_filename), fs1)
          else
            let fs2 := { fs1 with log := some (.valid master1) }
            if fs.moveRaises then (.error (manageFailMsg original_filename), fs2)
            else
              let fs3 := { fs2 with
                files := pjoin success_pdf_folder original_filename ::
                           fs2.files.erase original_pdf_path }
              (.success ("SUCCESS: Copied \x27" ++ original_filename ++ "\x27 to \x27" ++
                           destination_path ++
                           "\x27. Master log updated. New filename: " ++ new_pdf_name),
               fs3)

/-! ### Dictionary lemmas -/

theorem jget_map_set (l : Data) (k : String) (v : Json)
    (h : l.any (fun kv => kv.1 = k) = true) :
    jget (l.map (fun kv => if kv.1 = k then (k, v) else kv)) k = some v := by
  induction l with
  | nil => simp at h
  | cons hd tl ih =>
    obtain ⟨h1, h2⟩ := hd
    simp only [List.any_cons, Bool.or_eq_true, decide_eq_true_eq] at h
    by_cases hk : h1 = k
    · subst hk
      rw [List.map_cons]
      dsimp only
      rw [if_pos rfl]
      simp [jget]
    · have htl : tl.any (fun kv => kv.1 = k) = true := by
        rcases h with h | h
        · exact absurd h hk
        · exact h
      rw [List.map_cons]
      dsimp only
      rw [if_neg hk]
      simp only [jget, if_neg hk]
      exact ih htl

theorem jget_append_right (l : Data) (k : String) (v : Json)
    (h : jget l k = none) : jget (l ++ [(k, v)]) k = some v := by
  induction l with
  | nil => simp [jget]
  | cons hd tl ih =>
    obtain ⟨h1, h2⟩ := hd
    by_cases hk : h1 = k
    · simp [jget, hk] at h
    · simp only [List.cons_append, jget, if_neg hk] at h ⊢
      exact ih h

theorem any_key_false_jget (l : Data) (k : String)
    (h : l.any (fun kv => kv.1 = k) = false) : jget l k = none := by
  induction l with
  | nil => rfl
  | cons hd tl ih =>
    obtain ⟨h1, h2⟩ := hd
    simp only [List.any_cons, Bool.or_eq_false_iff, decide_eq_false_iff_not] at h
    simp [jget, h.1, ih h.2]

theorem jget_jset_self (l : Data) (k : String) (v : Json) :
    jget (jset l k v) k = some v := by
  unfold jset
  by_cases h : l.any (fun kv => kv.1 = k) = true
  · rw [if_pos h]; exact jget_map_set l k v h
  · rw [if_neg h]
    exact jget_append_right l k v (any_key_false_jget l k (Bool.not_eq_true _ ▸ h))

theorem jget_map_ne (l : Data) (k k' : String) (v : Json) (h : k' ≠ k) :
    jget (l.map (fun kv => if kv.1 = k then (k, v) else kv)) k' = jget l k' := by
  induction l with
  | nil => rfl
  | cons hd tl ih =>
    obtain ⟨h1, h2⟩ := hd
    by_cases hk : h1 = k
    · subst hk
      rw [List.map_cons]
      dsimp only
      rw [if_pos rfl]
      simp only [jget, if_neg (Ne.symm h)]
      exact ih
    · rw [List.map_cons]
      dsimp only
      rw [if_neg hk]
      by_cases hk2 : h1 = k'
      · simp only [jget, if_pos hk2]
      · simp only [jget, if_neg hk2]
        exact ih

theorem jget_append_ne (l : Data) (k k' : String) (v : Json) (h : k' ≠ k) :
    jget (l ++ [(k, v)]) k' = jget l k' := by
  induction l with
  | nil => simp [jget, Ne.symm h]
  | cons hd tl ih =>
    obtain ⟨h1, h2⟩ := hd
    by_cases hk2 : h1 = k' <;> simp [jget, hk2, ih]

theorem jget_jset_ne (l : Data) (k k' : String) (v : Json) (h : k' ≠ k) :
    jget (jset l k v) k' = jget l k' := by
  unfold jset
  split
  · exact jget_map_ne l k k' v h
  · exact jget_append_ne l k k' v h

/-! ### Frame lemmas for the validator sections -/

theorem dateSection_jget_ne (data : Data) (k : String) (h : k ≠ "日付") :
    jget (dateSection data).2 k = jget data k := by
  unfold dateSection
  dsimp only
  split
  · rfl
  · split
    · split
      · exact jget_jset_ne _ _ _ _ h
      · rfl
    · rfl
    · rfl

theorem amountSection_jget_ne (data : Data) (k : String) (h : k ≠ "金額") :
    jget (amountSection data).2 k = jget data k := by
  unfold amountSection
  dsimp only
  split
  · rfl
  · split
    · rfl
    · exact jget_jset_ne _ _ _ _ h

theorem validate_accepted_data (data out : Data)
    (h : validate_extracted_data (some data) = .accepted out) :
    out = (amountSection (dateSection data).2).2 := by
  unfold validate_extracted_data at h
  dsimp only at h
  rcases hv : vendorSection (amountSection (dateSection data).2).2 with _ | vErrs <;>
    rw [hv] at h
  · exact absurd h (by simp)
  · dsimp only at h
    split at h
    · cases h
      rfl
    · exact absurd h (by simp)

/-! ### Correctness of the strptime model on canonically rendered dates -/

theorem digitChar_isDigit (n : Nat) : (digitChar n).isDigit = true := by
  unfold digitChar
  split <;> decide

theorem charDigitVal_digitChar {n : Nat} (h : n ≤ 9) :
    charDigitVal (digitChar n) = n := by
  interval_cases n <;> decide

theorem digitChar_ne {c : Char} (hc : c.isDigit = false) (n : Nat) :
    digitChar n ≠ c := by
  intro he
  have hn := digitChar_isDigit n
  rw [he, hc] at hn
  exact Bool.noConfusion hn

theorem daysInMonth_le (y m : Nat) : daysInMonth y m ≤ 31 := by
  unfold daysInMonth
  split_ifs <;> omega

theorem parseYear4_pad {y : Nat} (hy : y ≤ 9999) (r : List Char) :
    parseYear4 (pad4c y ++ r) = some (y, r) := by
  simp only [pad4c, List.cons_append, List.nil_append, parseYear4]
  rw [if_pos ⟨digitChar_isDigit _, digitChar_isDigit _, digitChar_isDigit _,
        digitChar_isDigit _⟩]
  have e1 : charDigitVal (digitChar (y / 1000 % 10)) = y / 1000 % 10 :=
    charDigitVal_digitChar (by omega)
  have e2 : charDigitVal (digitChar (y / 100 % 10)) = y / 100 % 10 :=
    charDigitVal_digitChar (by omega)
  have e3 : charDigitVal (digitChar (y / 10 % 10)) = y / 10 % 10 :=
    charDigitVal_digitChar (by omega)
  have e4 : charDigitVal (digitChar (y % 10)) = y % 10 :=
    charDigitVal_digitChar (by omega)
  rw [e1, e2, e3, e4]
  congr 1
  congr 1
  omega

theorem month2_pad {m : Nat} (h1 : 1 ≤ m) (h2 : m ≤ 12) (r : List Char) :
    month2 (pad2c m ++ r) = some (m, r) := by
  interval_cases m <;> rfl

theorem day2_pad {d : Nat} (h1 : 1 ≤ d) (h2 : d ≤ 31) (r : List Char) :
    day2 (pad2c d ++ r) = some (d, r) := by
  interval_cases d <;> rfl

theorem goFmt_render (f : DateFmt) {y m d : Nat} (h : validDate y m d) :
    goFmt (fmtToks f) (renderChars f y m d) 1900 1 1 = some ((y, m, d), []) := by
  obtain ⟨hy1, hy2, hm1, hm2, hd1, hd2⟩ := h
  have hd31 : d ≤ 31 := le_trans hd2 (daysInMonth_le y m)
  have hday0 : day2 (pad2c d) = some (d, []) := by
    have := day2_pad hd1 hd31 []
    simpa using this
  cases f <;>
    simp [fmtToks, renderChars, goFmt, parseYear4_pad hy2, month2_pad hm1 hm2,
      day2_pad hd1 hd31, hday0]

theorem goFmt_kanji_lit_fail {y : Nat} (hy : y ≤ 9999) {c : Char} (hc : c ≠ '年')
    (rest : List Char) :
    goFmt (fmtToks .kanji) (pad4c y ++ c :: rest) 1900 1 1 = none := by
  simp [fmtToks, goFmt, parseYear4_pad hy, hc]

theorem goFmt_slash_lit_fail {y : Nat} (hy : y ≤ 9999) {c : Char} (hc : c ≠ '/')
    (rest : List Char) :
    goFmt (fmtToks .slash) (pad4c y ++ c :: rest) 1900 1 1 = none := by
  simp [fmtToks, goFmt, parseYear4_pad hy, hc]

theorem goFmt_dash_lit_fail {y : Nat} (hy : y ≤ 9999) {c : Char} (hc : c ≠ '-')
    (rest : List Char) :
    goFmt (fmtToks .dash) (pad4c y ++ c :: rest) 1900 1 1 = none := by
  simp [fmtToks, goFmt, parseYear4_pad hy, hc]

theorem strptimeDate_render (f : DateFmt) {y m d : Nat} (h : validDate y m d) :
    strptimeDate (fmtToks f) (renderYMD f y m d) = some (y, m, d) := by
  unfold strptimeDate renderYMD
  have hdata : (String.mk (renderChars f y m d)).data = renderChars f y m d := rfl
  rw [hdata, goFmt_render f h]
  obtain ⟨hy1, hy2, hm1, hm2, hd1, hd2⟩ := h
  dsimp only
  rw [if_pos]
  exact ⟨rfl, by simp only [datetimeOk, decide_eq_true_eq]; exact ⟨hy1, hm1, hm2, hd1, hd2⟩⟩

theorem strptimeDate_lit_fail_kanji {y : Nat} (hy : y ≤ 9999) {c : Char}
    (hc : c ≠ '年') (rest : List Char) :
    strptimeDate (fmtToks .kanji) (String.mk (pad4c y ++ c :: rest)) = none := by
  unfold strptimeDate
  have hdata : (String.mk (pad4c y ++ c :: rest)).data = pad4c y ++ c :: rest := rfl
  rw [hdata, goFmt_kanji_lit_fail hy hc]

theorem strptimeDate_lit_fail_slash {y : Nat} (hy : y ≤ 9999) {c : Char}
    (hc : c ≠ '/') (rest : List Char) :
    strptimeDate (fmtToks .slash) (String.mk (pad4c y ++ c :: rest)) = none := by
  unfold strptimeDate
  have hdata : (String.mk (pad4c y ++ c :: rest)).data = pad4c y ++ c :: rest := rfl
  rw [hdata, goFmt_slash_lit_fail hy hc]

theorem strptimeDate_lit_fail_dash {y : Nat} (hy : y ≤ 9999) {c : Char}
    (hc : c ≠ '-') (rest : List Char) :
    strptimeDate (fmtToks .dash) (String.mk (pad4c y ++ c :: rest)) = none := by
  unfold strptimeDate
  have hdata : (String.mk (pad4c y ++ c :: rest)).data = pad4c y ++ c :: rest := rfl
  rw [hdata, goFmt_dash_lit_fail hy hc]

theorem parseAnyDate_render (f : DateFmt) {y m d : Nat} (h : validDate y m d) :
    parseAnyDate (renderYMD f y m d) = some (y, m, d) := by
  have hy2 : y ≤ 9999 := h.2.1
  cases f
  · have h1 := strptimeDate_render .kanji h
    simp [parseAnyDate, h1]
  · have e : renderYMD .slash y m d =
        String.mk (pad4c y ++ '/' :: (pad2c m ++ '/' :: pad2c d)) := rfl
    have h1 : strptimeDate (fmtToks .kanji) (renderYMD .slash y m d) = none := by
      rw [e]; exact strptimeDate_lit_fail_kanji hy2 (by decide) _
    have h2 := strptimeDate_render .slash h
    simp [parseAnyDate, h1, h2]
  · have e : renderYMD .dash y m d =
        String.mk (pad4c y ++ '-' :: (pad2c m ++ '-' :: pad2c d)) := rfl
    have h1 : strptimeDate (fmtToks .kanji) (renderYMD .dash y m d) = none := by
      rw [e]; exact strptimeDate_lit_fail_kanji hy2 (by decide) _
    have h2 : strptimeDate (fmtToks .slash) (renderYMD .dash y m d) = none := by
      rw [e]; exact strptimeDate_lit_fail_slash hy2 (by decide) _
    have h3 := strptimeDate_render .dash h
    simp [parseAnyDate, h1, h2, h3]
  · have e : renderYMD .plain y m d =
        String.mk (pad4c y ++ digitChar (m / 10 % 10) :: (digitChar (m % 10) :: pad2c d)) :=
      rfl
    have h1 : strptimeDate (fmtToks .kanji) (renderYMD .plain y m d) = none := by
      rw [e]; exact strptimeDate_lit_fail_kanji hy2 (digitChar_ne (by decide) _) _
    have h2 : strptimeDate (fmtToks .slash) (renderYMD .plain y m d) = none := by
      rw [e]; exact strptimeDate_lit_fail_slash hy2 (digitChar_ne (by decide) _) _
    have h3 : strptimeDate (fmtToks .dash) (renderYMD .plain y m d) = none := by
      rw [e]; exact strptimeDate_lit_fail_dash hy2 (digitChar_ne (by decide) _) _
    have h4 := strptimeDate_render .plain h
    simp [parseAnyDate, h1, h2, h3, h4]

theorem pad4c_no_space (y : Nat) : ∀ c ∈ pad4c y, c ≠ ' ' := by
  intro c hc
  simp only [pad4c, List.mem_cons, List.not_mem_nil, or_false] at hc
  rcases hc with h | h | h | h <;> (subst h; exact digitChar_ne (by decide) _)

theorem pad2c_no_space (n : Nat) : ∀ c ∈ pad2c n, c ≠ ' ' := by
  intro c hc
  simp only [pad2c, List.mem_cons, List.not_mem_nil, or_false] at hc
  rcases hc with h | h <;> (subst h; exact digitChar_ne (by decide) _)

theorem renderChars_no_space (f : DateFmt) (y m d : Nat) :
    ∀ c ∈ renderChars f y m d, c ≠ ' ' := by
  intro c hc
  cases f
  · simp only [renderChars, List.mem_append, List.mem_cons, List.mem_singleton,
      List.not_mem_nil, or_false] at hc
    rcases hc with h | h | h | h | h | h
    · exact pad4c_no_space _ _ h
    · subst h; decide
    · exact pad2c_no_space _ _ h
    · subst h; decide
    · exact pad2c_no_space _ _ h
    · subst h; decide
  · simp only [renderChars, List.mem_append, List.mem_cons] at hc
    rcases hc with h | h | h | h | h
    · exact pad4c_no_space _ _ h
    · subst h; decide
    · exact pad2c_no_space _ _ h
    · subst h; decide
    · exact pad2c_no_space _ _ h
  · simp only [renderChars, List.mem_append, List.mem_cons] at hc
    rcases hc with h | h | h | h | h
    · exact pad4c_no_space _ _ h
    · subst h; decide
    · exact pad2c_no_space _ _ h
    · subst h; decide
    · exact pad2c_no_space _ _ h
  · simp only [renderChars, List.mem_append] at hc
    rcases hc with h | h | h
    · exact pad4c_no_space _ _ h
    · exact pad2c_no_space _ _ h
    · exact pad2c_no_space _ _ h

theorem stripSpaces_render (f : DateFmt) (y m d : Nat) :
    stripSpaces (renderYMD f y m d) = renderYMD f y m d := by
  unfold stripSpaces renderYMD
  congr 1
  have : ∀ c ∈ renderChars f y m d, (fun c => decide (c ≠ ' ')) c = true := by
    intro c hc
    simpa using renderChars_no_space f y m d c hc
  exact List.filter_eq_self.mpr this

theorem renderYMD_ne_empty (f : DateFmt) (y m d : Nat) :
    renderYMD f y m d ≠ "" := by
  intro h
  have hd : (renderYMD f y m d).data = ("" : String).data := by rw [h]
  have : renderChars f y m d = [] := hd
  cases f <;> simp [renderChars, pad4c] at this

theorem dateSection_wellformed (data : Data) (f : DateFmt) {y m d : Nat}
    (h : validDate y m d)
    (hdate : jget data "日付" = some (.str (renderYMD f y m d))) :
    dateSection data = ([], jset data "日付" (.str (canonYMD y m d))) := by
  unfold dateSection
  dsimp only
  rw [hdate]
  rw [if_neg (by simp [pyFalsyOpt, pyTruthy, renderYMD_ne_empty f y m d])]
  dsimp only
  rw [stripSpaces_render f y m d, parseAnyDate_render f h]

theorem dateSection_unparseable (data : Data) {s : String}
    (hs : jget data "日付" = some (.str s)) (hne : s ≠ "")
    (hp : parseAnyDate (stripSpaces s) = none) :
    dateSection data =
      (["日付 \x27" ++ s ++
          "\x27 は認識される YYYYMMDD、YYYY/MM/DD、または YYYY-MM-DD 形式ではありません。"],
       data) := by
  unfold dateSection
  dsimp only
  rw [hs]
  rw [if_neg (by simp [pyFalsyOpt, pyTruthy, hne])]
  dsimp only
  rw [hp]

theorem jset_nil (k : String) (v : Json) : jset [] k v = [(k, v)] := rfl

/-! ### Claim theorems -/

/-- C1: `validate_extracted_data` collects every defect in a single call and
never short-circuits: for every input map whose date is missing (falsy), whose
amount coerces to the empty string, and whose vendor check reports the
missing-vendor defect, the verdict is `rejected` and the defect list starts
with the three defect lines in source order; the returned message is
`"ERROR: "` followed by the newline-join of the defects, hence contains all
three lines newline-joined. -/
theorem c1_collects_all_defects (data : Data)
    (hdate : pyFalsyOpt (jget data "日付") = true)
    (hamount : amountString data = "")
    (hvendor : vendorSection data =
      some ["相手先が抽出されていません。ファイルを確認してください。"]) :
    ∃ rest,
      validate_extracted_data (some data) =
        .rejected ("日付 (Date) is missing." ::
          "金額は抽出されていません。ファイルを確認してください。" ::
          "相手先が抽出されていません。ファイルを確認してください。" :: rest) ∧
      ∃ tail,
        rejectedMessage ("日付 (Date) is missing." ::
            "金額は抽出されていません。ファイルを確認してください。" ::
            "相手先が抽出されていません。ファイルを確認してください。" :: rest) =
          "ERROR: 日付 (Date) is missing.\n金額は抽出されていません。ファイルを確認してください。\n相手先が抽出されていません。ファイルを確認してください。" ++
            tail := by
  have hd : dateSection data = (["日付 (Date) is missing."], data) := by
    unfold dateSection
    dsimp only
    rw [if_pos hdate]
  have ha : amountSection data =
      (["金額は抽出されていません。ファイルを確認してください。"], data) := by
    unfold amountSection
    dsimp only
    rw [if_pos hamount]
  refine ⟨regSection data, ?_, ?_⟩
  · simp [validate_extracted_data, hd, ha, hvendor]
  · unfold regSection
    by_cases hreg : pyTruthy (pyGetD data "登録番号" (.str "")) = true
    · rw [if_pos hreg]
      exact ⟨"", rfl⟩
    · rw [if_neg hreg]
      exact ⟨"\n登録番号が抽出されていません。ファイルを確認してください。", rfl⟩

/-- C1 witness: the empty field map is missing all three, and the defect
report lists all four defect lines at once. -/
theorem c1_witness :
    pyFalsyOpt (jget ([] : Data) "日付") = true ∧
    amountString ([] : Data) = "" ∧
    vendorSection ([] : Data) =
      some ["相手先が抽出されていません。ファイルを確認してください。"] ∧
    ∃ rest,
      validate_extracted_data (some ([] : Data)) =
        .rejected ("日付 (Date) is missing." ::
          "金額は抽出されていません。ファイルを確認してください。" ::
          "相手先が抽出されていません。ファイルを確認してください。" :: rest) ∧
      ∃ tail,
        rejectedMessage ("日付 (Date) is missing." ::
            "金額は抽出されていません。ファイルを確認してください。" ::
            "相手先が抽出されていません。ファイルを確認してください。" :: rest) =
          "ERROR: 日付 (Date) is missing.\n金額は抽出されていません。ファイルを確認してください。\n相手先が抽出されていません。ファイルを確認してください。" ++
            tail :=
  ⟨rfl, rfl, rfl, c1_collects_all_defects [] rfl rfl rfl⟩

/-- C2 counterexample: on exactly `{日付: "2025/13/01", 金額: "1000a"}` the
validator returns four defects (date, amount, missing vendor, missing
registration number), not two as the claim states. -/
theorem c2_counterexample :
    (rejectedErrors (validate_extracted_data
      (some [("日付", Json.str "2025/13/01"), ("金額", Json.str "1000a")]))).length = 4 := by
  rfl

/-- C2 (amended): on `{日付: "2025/13/01", 金額: "1000a"}` the validator
returns `Rejected` with four defects — one naming the date value
`2025/13/01`, one naming the amount value `1000a`, plus the missing-vendor
and missing-registration-number defects. -/
theorem c2_amended :
    validate_extracted_data
        (some [("日付", Json.str "2025/13/01"), ("金額", Json.str "1000a")]) =
      .rejected
        ["日付 \x272025/13/01\x27 は認識される YYYYMMDD、YYYY/MM/DD、または YYYY-MM-DD 形式ではありません。",
         "金額 \x271000a\x27 は純粋な数値ではありません。",
         "相手先が抽出されていません。ファイルを確認してください。",
         "登録番号が抽出されていません。ファイルを確認してください。"] := by
  rfl

/-- C3 counterexample: with the copy and the master-log write succeeding and
only the final move failing, `manage_processed_receipt_files` reports the
whole operation as an error — it does not report success with a warning. -/
theorem c3_counterexample :
    (manage_processed_receipt_files ⟨["pdfs/a.pdf"], none, false, false, true⟩ "abc123"
        "pdfs/a.pdf" (some [("日付", Json.str "20250101"), ("金額", Json.str "1000")])
        "output_pdfs" "master.json" "success_pdfs").1 =
      .error "ERROR: Failed to copy or update log for \x27a.pdf\x27" ∧
    isSuccess (manage_processed_receipt_files ⟨["pdfs/a.pdf"], none, false, false, true⟩
        "abc123" "pdfs/a.pdf"
        (some [("日付", Json.str "20250101"), ("金額", Json.str "1000")])
        "output_pdfs" "master.json" "success_pdfs").1 = false := by
  exact ⟨rfl, rfl⟩

/-- C3 (amended): when the copy and the master-log write have both succeeded
(`hload` states that the log content loads, part of the claim's premise that
the log write succeeded) but the final move of the source file fails, the
single `try`/`except` block makes the whole operation report the blanket
ERROR result (no success report, no distinct warning), although the copied
document and the new log entry persist on disk. -/
theorem c3_move_failure_reports_error
    (fs : FS) (random_string orig out logp succ : String) (data : Data) (vendor : String)
    (master0 : List (String × Json))
    (hkeys : (hasKey data "日付" && hasKey data "金額") = true)
    (hvendor : vendorFromData data = some vendor)
    (horig : orig ∈ fs.files)
    (hload : loadMaster fs.log = some master0)
    (hcopy : fs.copyRaises = false) (hwrite : fs.writeRaises = false)
    (hmove : fs.moveRaises = true) :
    (manage_processed_receipt_files fs random_string orig (some data)
        out logp succ).1 = .error (manageFailMsg (osBasename orig)) ∧
    (manage_processed_receipt_files fs random_string orig (some data)
        out logp succ).2.files =
      resolveDest fs.files out (filingBase data vendor) random_string :: fs.files ∧
    ∃ m, (manage_processed_receipt_files fs random_string orig (some data)
        out logp succ).2.log = some (.valid m) ∧
      jget m (filingBase data vendor ++ "_" ++ random_string ++ ".pdf") =
        some (.obj (jset data "元名" (.str (osBasename orig)))) := by
  refine ⟨?_, ?_, ?_⟩
  · simp [manage_processed_receipt_files, hkeys, hvendor, horig, hload, hcopy, hwrite,
      hmove]
  · simp [manage_processed_receipt_files, hkeys, hvendor, horig, hload, hcopy, hwrite,
      hmove]
  · have hlog2 : (manage_processed_receipt_files fs random_string orig (some data)
        out logp succ).2.log =
        some (.valid (jset master0
          (filingBase data vendor ++ "_" ++ random_string ++ ".pdf")
          (.obj (jset data "元名" (.str (osBasename orig)))))) := by
      simp [manage_processed_receipt_files, hkeys, hvendor, horig, hload, hcopy, hwrite,
        hmove]
    exact ⟨_, hlog2, jget_jset_self _ _ _⟩

/-- C3 witness for the amended theorem: a concrete run with copy and log
write succeeding and the move failing. -/
theorem c3_move_failure_witness :
    (manage_processed_receipt_files ⟨["pdfs/b.pdf"], none, false, false, true⟩ "r00001"
        "pdfs/b.pdf" (some [("日付", Json.str "20250101"), ("金額", Json.str "500")])
        "o" "l" "s").1 = .error (manageFailMsg (osBasename "pdfs/b.pdf")) ∧
    (manage_processed_receipt_files ⟨["pdfs/b.pdf"], none, false, false, true⟩ "r00001"
        "pdfs/b.pdf" (some [("日付", Json.str "20250101"), ("金額", Json.str "500")])
        "o" "l" "s").2.files =
      resolveDest ["pdfs/b.pdf"] "o"
        (filingBase [("日付", Json.str "20250101"), ("金額", Json.str "500")] "不明")
        "r00001" :: ["pdfs/b.pdf"] ∧
    ∃ m, (manage_processed_receipt_files ⟨["pdfs/b.pdf"], none, false, false, true⟩ "r00001"
        "pdfs/b.pdf" (some [("日付", Json.str "20250101"), ("金額", Json.str "500")])
        "o" "l" "s").2.log = some (.valid m) ∧
      jget m (filingBase [("日付", Json.str "20250101"), ("金額", Json.str "500")] "不明" ++
          "_" ++ "r00001" ++ ".pdf") =
        some (.obj (jset [("日付", Json.str "20250101"), ("金額", Json.str "500")] "元名"
          (.str (osBasename "pdfs/b.pdf")))) :=
  c3_move_failure_reports_error ⟨["pdfs/b.pdf"], none, false, false, true⟩ "r00001"
    "pdfs/b.pdf" "o" "l" "s" [("日付", Json.str "20250101"), ("金額", Json.str "500")]
    "不明" [] rfl rfl (by simp) rfl rfl rfl rfl

/-- C4: the workflow edge out of `validate_data` is unconditional: for every
state — in particular for every state produced by `call_validate_data`,
whether the stored verdict is `OK:` or `ERROR:` — the next node is
`human_validation` (the Reviewing stage), and no `validate_data → manage_files`
edge exists in the graph. -/
theorem c4_validating_always_reviews :
    (∀ st : GState, nextAfter "validate_data" st = "human_validation") ∧
    (∀ (st : GState) (outcome : Except String String),
      nextAfter "validate_data" (call_validate_data st outcome) = "human_validation") ∧
    ("validate_data", "manage_files") ∉ workflowEdges := by
  refine ⟨fun st => rfl, fun st outcome => rfl, by decide⟩

/-- C5 (code bug): two filings with the same base name and the same random
disambiguator.  Both succeed and the two copies get distinct file names
(`…_abc123.pdf` and `…_abc123_1.pdf`), but the collision loop of lines
333-336 updates only `destination_path` and not `new_pdf_name`, which line
358 then uses as the master-log key (the comment on line 356 says the key is
the new filename).  The second filing therefore overwrites the first log
entry: the final log holds a single key whose record is the second record,
instead of the two distinct keys the claim requires. -/
theorem c5_collision_key_overwrite :
    isSuccess (manage_processed_receipt_files
      ⟨["pdfs/a.pdf", "pdfs/b.pdf"], none, false, false, false⟩ "abc123" "pdfs/a.pdf"
      (some [("日付", Json.str "20250101"), ("金額", Json.str "1000"),
             ("相手先", Json.obj [("名前", Json.str "Acme")]),
             ("登録番号", Json.str "T123")])
      "output" "master.json" "done").1 = true ∧
    isSuccess (manage_processed_receipt_files
      (manage_processed_receipt_files
        ⟨["pdfs/a.pdf", "pdfs/b.pdf"], none, false, false, false⟩ "abc123" "pdfs/a.pdf"
        (some [("日付", Json.str "20250101"), ("金額", Json.str "1000"),
               ("相手先", Json.obj [("名前", Json.str "Acme")]),
               ("登録番号", Json.str "T123")])
        "output" "master.json" "done").2 "abc123" "pdfs/b.pdf"
      (some [("日付", Json.str "20250101"), ("金額", Json.str "1000"),
             ("相手先", Json.obj [("名前", Json.str "Acme")]),
             ("登録番号", Json.str "T999")])
      "output" "master.json" "done").1 = true ∧
    "output/20250101_1000_Acme_abc123.pdf" ∈
      (manage_processed_receipt_files
        (manage_processed_receipt_files
          ⟨["pdfs/a.pdf", "pdfs/b.pdf"], none, false, false, false⟩ "abc123" "pdfs/a.pdf"
          (some [("日付", Json.str "20250101"), ("金額", Json.str "1000"),
                 ("相手先", Json.obj [("名前", Json.str "Acme")]),
                 ("登録番号", Json.str "T123")])
          "output" "master.json" "done").2 "abc123" "pdfs/b.pdf"
        (some [("日付", Json.str "20250101"), ("金額", Json.str "1000"),
               ("相手先", Json.obj [("名前", Json.str "Acme")]),
               ("登録番号", Json.str "T999")])
        "output" "master.json" "done").2.files ∧
    "output/20250101_1000_Acme_abc123_1.pdf" ∈
      (manage_processed_receipt_files
        (manage_processed_receipt_files
          ⟨["pdfs/a.pdf", "pdfs/b.pdf"], none, false, false, false⟩ "abc123" "pdfs/a.pdf"
          (some [("日付", Json.str "20250101"), ("金額", Json.str "1000"),
                 ("相手先", Json.obj [("名前", Json.str "Acme")]),
                 ("登録番号", Json.str "T123")])
          "output" "master.json" "done").2 "abc123" "pdfs/b.pdf"
        (some [("日付", Json.str "20250101"), ("金額", Json.str "1000"),
               ("相手先", Json.obj [("名前", Json.str "Acme")]),
               ("登録番号", Json.str "T999")])
        "output" "master.json" "done").2.files ∧
    (manage_processed_receipt_files
      (manage_processed_receipt_files
        ⟨["pdfs/a.pdf", "pdfs/b.pdf"], none, false, false, false⟩ "abc123" "pdfs/a.pdf"
        (some [("日付", Json.str "20250101"), ("金額", Json.str "1000"),
               ("相手先", Json.obj [("名前", Json.str "Acme")]),
               ("登録番号", Json.str "T123")])
        "output" "master.json" "done").2 "abc123" "pdfs/b.pdf"
      (some [("日付", Json.str "20250101"), ("金額", Json.str "1000"),
             ("相手先", Json.obj [("名前", Json.str "Acme")]),
             ("登録番号", Json.str "T999")])
      "output" "master.json" "done").2.log =
      some (.valid [("20250101_1000_Acme_abc123.pdf",
        .obj [("日付", Json.str "20250101"), ("金額", Json.str "1000"),
              ("相手先", Json.obj [("名前", Json.str "Acme")]),
              ("登録番号", Json.str "T999"), ("元名", Json.str "b.pdf")])]) := by
  refine ⟨rfl, rfl, by decide, by decide, rfl⟩

/-- C6 counterexample: a master log that exists but holds unreadable bytes
(`json.load` raises `UnicodeDecodeError`, which the
`except json.JSONDecodeError` handler of line 352 does not catch) makes the
filing fail with the blanket ERROR result — the claim's "does not fail" is
false for this corrupt content. -/
theorem c6_counterexample :
    (manage_processed_receipt_files
        ⟨["in/u.pdf"], some .undecodable, false, false, false⟩ "cafe01" "in/u.pdf"
        (some [("日付", Json.str "20250601"), ("金額", Json.str "300")])
        "out" "log.json" "ok").1 =
      .error "ERROR: Failed to copy or update log for \x27u.pdf\x27" ∧
    isSuccess (manage_processed_receipt_files
        ⟨["in/u.pdf"], some .undecodable, false, false, false⟩ "cafe01" "in/u.pdf"
        (some [("日付", Json.str "20250601"), ("金額", Json.str "300")])
        "out" "log.json" "ok").1 = false :=
  ⟨rfl, rfl⟩

/-- C6 (amended): self-healing of a corrupt master log is limited to content
on which `json.load` raises `json.JSONDecodeError` — then the filing
completes and the log on disk afterwards is a valid map holding exactly the
new entry.  Content that parses to valid JSON whose top level is not a dict
(the keyed assignment of line 358 raises `TypeError`) and undecodable bytes
(`json.load` raises `UnicodeDecodeError`) both escape the narrow handler
into the blanket `except`, so the whole operation fails with the ERROR
result and the log is left unchanged (the copy having already persisted). -/
theorem c6_log_selfheal_scope (fs : FS) (random_string orig out logp succ : String)
    (data : Data) (vendor : String)
    (hkeys : (hasKey data "日付" && hasKey data "金額") = true)
    (hvendor : vendorFromData data = some vendor)
    (horig : orig ∈ fs.files)
    (hcopy : fs.copyRaises = false) (hwrite : fs.writeRaises = false)
    (hmove : fs.moveRaises = false) :
    (fs.log = some .corrupt →
      isSuccess (manage_processed_receipt_files fs random_string orig (some data)
        out logp succ).1 = true ∧
      (manage_processed_receipt_files fs random_string orig (some data)
          out logp succ).2.log =
        some (.valid [(filingBase data vendor ++ "_" ++ random_string ++ ".pdf",
          .obj (jset data "元名" (.str (osBasename orig))))])) ∧
    (fs.log = some .nonDict →
      (manage_processed_receipt_files fs random_string orig (some data)
        out logp succ).1 = .error (manageFailMsg (osBasename orig)) ∧
      (manage_processed_receipt_files fs random_string orig (some data)
        out logp succ).2.log = fs.log) ∧
    (fs.log = some .undecodable →
      (manage_processed_receipt_files fs random_string orig (some data)
        out logp succ).1 = .error (manageFailMsg (osBasename orig)) ∧
      (manage_processed_receipt_files fs random_string orig (some data)
        out logp succ).2.log = fs.log) := by
  refine ⟨?_, ?_, ?_⟩ <;> intro hlog
  · constructor
    · simp [manage_processed_receipt_files, hkeys, hvendor, horig, hcopy, hwrite, hmove,
        hlog, loadMaster, isSuccess]
    · simp [manage_processed_receipt_files, hkeys, hvendor, horig, hcopy, hwrite, hmove,
        hlog, loadMaster, jset_nil]
  · constructor <;>
      simp [manage_processed_receipt_files, hkeys, hvendor, horig, hcopy, hwrite, hmove,
        hlog, loadMaster]
  · constructor <;>
      simp [manage_processed_receipt_files, hkeys, hvendor, horig, hcopy, hwrite, hmove,
        hlog, loadMaster]

/-- C6 witness: three concrete runs differing only in the stored log
content — `JSONDecodeError` content files successfully and leaves the
one-entry log; a valid-JSON-non-dict log and an undecodable log both fail
with the blanket ERROR and leave the log unchanged. -/
theorem c6_log_selfheal_witness :
    (isSuccess (manage_processed_receipt_files
        ⟨["in/r.pdf"], some .corrupt, false, false, false⟩ "f00bar" "in/r.pdf"
        (some [("日付", Json.str "20250115"), ("金額", Json.str "2200")])
        "out" "log.json" "ok").1 = true ∧
      (manage_processed_receipt_files
          ⟨["in/r.pdf"], some .corrupt, false, false, false⟩ "f00bar" "in/r.pdf"
          (some [("日付", Json.str "20250115"), ("金額", Json.str "2200")])
          "out" "log.json" "ok").2.log =
        some (.valid [(filingBase [("日付", Json.str "20250115"),
            ("金額", Json.str "2200")] "不明" ++ "_" ++ "f00bar" ++ ".pdf",
          .obj (jset [("日付", Json.str "20250115"), ("金額", Json.str "2200")] "元名"
            (.str (osBasename "in/r.pdf"))))])) ∧
    ((manage_processed_receipt_files
        ⟨["in/r.pdf"], some .nonDict, false, false, false⟩ "f00bar" "in/r.pdf"
        (some [("日付", Json.str "20250115"), ("金額", Json.str "2200")])
        "out" "log.json" "ok").1 = .error (manageFailMsg (osBasename "in/r.pdf")) ∧
      (manage_processed_receipt_files
          ⟨["in/r.pdf"], some .nonDict, false, false, false⟩ "f00bar" "in/r.pdf"
          (some [("日付", Json.str "20250115"), ("金額", Json.str "2200")])
          "out" "log.json" "ok").2.log = some .nonDict) ∧
    ((manage_processed_receipt_files
        ⟨["in/r.pdf"], some .undecodable, false, false, false⟩ "f00bar" "in/r.pdf"
        (some [("日付", Json.str "20250115"), ("金額", Json.str "2200")])
        "out" "log.json" "ok").1 = .error (manageFailMsg (osBasename "in/r.pdf")) ∧
      (manage_processed_receipt_files
          ⟨["in/r.pdf"], some .undecodable, false, false, false⟩ "f00bar" "in/r.pdf"
          (some [("日付", Json.str "20250115"), ("金額", Json.str "2200")])
          "out" "log.json" "ok").2.log = some .undecodable) :=
  ⟨(c6_log_selfheal_scope ⟨["in/r.pdf"], some .corrupt, false, false, false⟩ "f00bar"
      "in/r.pdf" "out" "log.json" "ok"
      [("日付", Json.str "20250115"), ("金額", Json.str "2200")] "不明"
      rfl rfl (by simp) rfl rfl rfl).1 rfl,
   (c6_log_selfheal_scope ⟨["in/r.pdf"], some .nonDict, false, false, false⟩ "f00bar"
      "in/r.pdf" "out" "log.json" "ok"
      [("日付", Json.str "20250115"), ("金額", Json.str "2200")] "不明"
      rfl rfl (by simp) rfl rfl rfl).2.1 rfl,
   (c6_log_selfheal_scope ⟨["in/r.pdf"], some .undecodable, false, false, false⟩ "f00bar"
      "in/r.pdf" "out" "log.json" "ok"
      [("日付", Json.str "20250115"), ("金額", Json.str "2200")] "不明"
      rfl rfl (by simp) rfl rfl rfl).2.2 rfl⟩

/-- C7: a date field holding the canonical rendering of a structurally valid
calendar date in any of the four supported formats produces no date defect
and is normalized in place to `YYYYMMDD` (also visible in the accepted
output); a date string that no format parses yields exactly the defect line
naming the offending value. -/
theorem c7_date_normalization :
    (∀ (data : Data) (f : DateFmt) (y m d : Nat), validDate y m d →
      jget data "日付" = some (.str (renderYMD f y m d)) →
      dateSection data = ([], jset data "日付" (.str (canonYMD y m d)))) ∧
    (∀ (data out : Data) (f : DateFmt) (y m d : Nat), validDate y m d →
      jget data "日付" = some (.str (renderYMD f y m d)) →
      validate_extracted_data (some data) = .accepted out →
      jget out "日付" = some (.str (canonYMD y m d))) ∧
    (∀ (data : Data) (s : String), jget data "日付" = some (.str s) → s ≠ "" →
      parseAnyDate (stripSpaces s) = none →
      (dateSection data).1 =
        ["日付 \x27" ++ s ++
          "\x27 は認識される YYYYMMDD、YYYY/MM/DD、または YYYY-MM-DD 形式ではありません。"]) := by
  refine ⟨?_, ?_, ?_⟩
  · intro data f y m d h hdate
    exact dateSection_wellformed data f h hdate
  · intro data out f y m d h hdate hacc
    rw [validate_accepted_data data out hacc,
      amountSection_jget_ne _ _ (by decide),
      dateSection_wellformed data f h hdate]
    exact jget_jset_self _ _ _
  · intro data s hs hne hp
    rw [dateSection_unparseable data hs hne hp]

/-- C7 witness: `2025-01-31` normalizes to `20250131` with no defect (in the
full validator as well), and `9999/99/99` yields the defect naming it. -/
theorem c7_date_witness :
    dateSection [("日付", Json.str "2025-01-31"), ("金額", Json.str "5")] =
      ([], jset [("日付", Json.str "2025-01-31"), ("金額", Json.str "5")] "日付"
        (Json.str (canonYMD 2025 1 31))) ∧
    jget [("日付", Json.str "20250131"), ("金額", Json.str "5"),
        ("相手先", Json.obj [("名前", Json.str "Acme")]),
        ("登録番号", Json.str "T1")] "日付" = some (Json.str (canonYMD 2025 1 31)) ∧
    (dateSection [("日付", Json.str "9999/99/99")]).1 =
      ["日付 \x279999/99/99\x27 は認識される YYYYMMDD、YYYY/MM/DD、または YYYY-MM-DD 形式ではありません。"] := by
  refine ⟨?_, ?_, ?_⟩
  · exact c7_date_normalization.1 [("日付", Json.str "2025-01-31"), ("金額", Json.str "5")]
      .dash 2025 1 31 (by decide) rfl
  · exact c7_date_normalization.2.1
      [("日付", Json.str "2025-01-31"), ("金額", Json.str "5"),
       ("相手先", Json.obj [("名前", Json.str "Acme")]), ("登録番号", Json.str "T1")]
      [("日付", Json.str "20250131"), ("金額", Json.str "5"),
       ("相手先", Json.obj [("名前", Json.str "Acme")]), ("登録番号", Json.str "T1")]
      .dash 2025 1 31 (by decide) rfl rfl
  · exact c7_date_normalization.2.2 [("日付", Json.str "9999/99/99")] "9999/99/99"
      rfl (by decide) rfl

/-- C8: from Reviewing, the router sends the job to `manage_files` (Filing)
iff the human-validation result is present and begins with `"APPROVED:"`;
every other outcome routes to `request_review` (Quarantine), and
`call_manage_files` itself reports `FAILED` whenever its `validated_data`
does not begin with `"APPROVED:"`. -/
theorem c8_review_routing :
    (∀ st : GState, route_human_validation_result st = "manage_files" ↔
      ∃ v, st.validated_data = some v ∧ pyStartsWith v "APPROVED:" = true) ∧
    (∀ st : GState, route_human_validation_result st ≠ "manage_files" →
      route_human_validation_result st = "request_review") ∧
    (∀ (st : GState) (parseOk : Bool) (outcome : Except String String),
      (∀ v, st.validated_data = some v → pyStartsWith v "APPROVED:" = false) →
      (call_manage_files st parseOk outcome).processed_status = some "FAILED") := by
  refine ⟨?_, ?_, ?_⟩
  · intro st
    constructor
    · intro h
      by_cases hc : (st.validated_data.getD "" ≠ "" ∧
          pyStartsWith (st.validated_data.getD "") "APPROVED:")
      · cases hv : st.validated_data with
        | none => rw [hv] at hc; exact absurd rfl hc.1
        | some v =>
          refine ⟨v, rfl, ?_⟩
          have := hc.2
          rw [hv] at this
          exact this
      · unfold route_human_validation_result at h
        rw [if_neg hc] at h
        exact absurd h (by decide)
    · rintro ⟨v, hv, hsw⟩
      unfold route_human_validation_result
      rw [hv]
      rw [if_pos]
      refine ⟨?_, hsw⟩
      intro he
      rw [show (some v).getD "" = v from rfl] at he
      rw [he] at hsw
      exact absurd hsw (by decide)
  · intro st h
    by_cases hc : (st.validated_data.getD "" ≠ "" ∧
        pyStartsWith (st.validated_data.getD "") "APPROVED:")
    · exfalso
      apply h
      unfold route_human_validation_result
      rw [if_pos hc]
    · unfold route_human_validation_result
      rw [if_neg hc]
  · intro st parseOk outcome hnotap
    have hcond : (st.validated_data.getD "" = "" ∨
        ¬ pyStartsWith (st.validated_data.getD "") "APPROVED:") := by
      cases hv : st.validated_data with
      | none => exact Or.inl rfl
      | some v =>
        right
        rw [show (some v).getD "" = v from rfl]
        rw [hnotap v hv]
        decide
    unfold call_manage_files
    dsimp only
    rw [if_pos hcond]

/-- C8 witness: a rejected review result is routed to `request_review`, and
`call_manage_files` reports FAILED on it even when the tool would have
succeeded. -/
theorem c8_review_witness :
    route_human_validation_result { validated_data := some "REJECTED: bad" } =
      "request_review" ∧
    (call_manage_files { validated_data := some "REJECTED: bad" } true
        (.ok "SUCCESS: x")).processed_status = some "FAILED" := by
  constructor
  · exact c8_review_routing.2.1 { validated_data := some "REJECTED: bad" } (by decide)
  · exact c8_review_routing.2.2 { validated_data := some "REJECTED: bad" } true
      (.ok "SUCCESS: x")
      (fun v hv => by
        have : v = "REJECTED: bad" := by
          have := hv
          simp at this
          exact this.symm
        rw [this]
        decide)

/-- C9: when validation accepts, only the 日付 and 金額 fields are rewritten
(normalized in place); every other key of the input map has the same value in
the accepted output. -/
theorem c9_accept_frame (data out : Data)
    (hacc : validate_extracted_data (some data) = .accepted out) :
    ∀ k, k ≠ "日付" → k ≠ "金額" → jget out k = jget data k := by
  intro k h1 h2
  rw [validate_accepted_data data out hacc, amountSection_jget_ne _ _ h2,
    dateSection_jget_ne _ _ h1]

/-- C9 witness: a concrete accepted run in which the vendor object,
registration number and an extra key pass through unchanged while date and
amount are normalized. -/
theorem c9_accept_frame_witness :
    validate_extracted_data
        (some [("日付", Json.str "2025-01-01"), ("金額", Json.str "1,000"),
               ("相手先", Json.obj [("名前", Json.str "Acme")]),
               ("登録番号", Json.str "T123"), ("extra", Json.num 7)]) =
      .accepted [("日付", Json.str "20250101"), ("金額", Json.str "1000"),
                 ("相手先", Json.obj [("名前", Json.str "Acme")]),
                 ("登録番号", Json.str "T123"), ("extra", Json.num 7)] ∧
    jget [("日付", Json.str "20250101"), ("金額", Json.str "1000"),
          ("相手先", Json.obj [("名前", Json.str "Acme")]),
          ("登録番号", Json.str "T123"), ("extra", Json.num 7)] "相手先" =
      jget [("日付", Json.str "2025-01-01"), ("金額", Json.str "1,000"),
            ("相手先", Json.obj [("名前", Json.str "Acme")]),
            ("登録番号", Json.str "T123"), ("extra", Json.num 7)] "相手先" ∧
    jget [("日付", Json.str "20250101"), ("金額", Json.str "1000"),
          ("相手先", Json.obj [("名前", Json.str "Acme")]),
          ("登録番号", Json.str "T123"), ("extra", Json.num 7)] "extra" =
      jget [("日付", Json.str "2025-01-01"), ("金額", Json.str "1,000"),
            ("相手先", Json.obj [("名前", Json.str "Acme")]),
            ("登録番号", Json.str "T123"), ("extra", Json.num 7)] "extra" := by
  refine ⟨rfl, ?_, ?_⟩
  · exact c9_accept_frame
      [("日付", Json.str "2025-01-01"), ("金額", Json.str "1,000"),
       ("相手先", Json.obj [("名前", Json.str "Acme")]),
       ("登録番号", Json.str "T123"), ("extra", Json.num 7)]
      [("日付", Json.str "20250101"), ("金額", Json.str "1000"),
       ("相手先", Json.obj [("名前", Json.str "Acme")]),
       ("登録番号", Json.str "T123"), ("extra", Json.num 7)]
      rfl "相手先" (by decide) (by decide)
  · exact c9_accept_frame
      [("日付", Json.str "2025-01-01"), ("金額", Json.str "1,000"),
       ("相手先", Json.obj [("名前", Json.str "Acme")]),
       ("登録番号", Json.str "T123"), ("extra", Json.num 7)]
      [("日付", Json.str "20250101"), ("金額", Json.str "1000"),
       ("相手先", Json.obj [("名前", Json.str "Acme")]),
       ("登録番号", Json.str "T123"), ("extra", Json.num 7)]
      rfl "extra" (by decide) (by decide)

/-- C10: `manage_processed_receipt_files` demands only that the 日付 and
金額 keys be present (error if not), while a vendor that is absent — the
相手先 key missing, or its dict missing 名前 — or empty after sanitization
never fails the filing: the vendor component of the file name falls back to
the placeholder `不明` and the operation succeeds. -/
theorem c10_vendor_fallback :
    (∀ (fs : FS) (rand orig out logp succ : String) (data : Data),
      (hasKey data "日付" && hasKey data "金額") = false →
      (manage_processed_receipt_files fs rand orig (some data) out logp succ).1 =
        .error
          "ERROR: Extracted data missing essential fields (日付 or 金額) for renaming.") ∧
    (∀ (fs : FS) (rand orig out logp succ : String) (data : Data),
      (hasKey data "日付" && hasKey data "金額") = true →
      (jget data "相手先" = none ∨
        (∃ vf, jget data "相手先" = some (.obj vf) ∧ jget vf "名前" = none) ∨
        (∃ vf s, jget data "相手先" = some (.obj vf) ∧ jget vf "名前" = some (.str s) ∧
          sanitizeVendor s = "")) →
      vendorFromData data = some "不明" ∧
      (orig ∈ fs.files → loadMaster fs.log ≠ none → fs.copyRaises = false →
        fs.writeRaises = false → fs.moveRaises = false →
        isSuccess (manage_processed_receipt_files fs rand orig (some data)
          out logp succ).1 = true)) := by
  constructor
  · intro fs rand orig out logp succ data hkeys
    simp [manage_processed_receipt_files, hkeys]
  · intro fs rand orig out logp succ data hkeys hvend
    have hv : vendorFromData data = some "不明" := by
      rcases hvend with h | ⟨vf, h1, h2⟩ | ⟨vf, s, h1, h2, h3⟩
      · unfold vendorFromData pyGetD
        rw [h]
        rfl
      · unfold vendorFromData pyGetD
        rw [h1]
        simp only [Option.getD_some]
        rw [h2]
        rfl
      · unfold vendorFromData pyGetD
        rw [h1]
        simp only [Option.getD_some]
        rw [h2]
        simp only [Option.getD_some]
        rw [h3]
        rfl
    refine ⟨hv, ?_⟩
    intro horig hload hcopy hwrite hmove
    cases hl : loadMaster fs.log with
    | none => exact absurd hl hload
    | some m0 =>
      simp [manage_processed_receipt_files, hkeys, hv, horig, hl, hcopy, hwrite, hmove,
        isSuccess]

/-- C10 witness: a map missing 日付 errors out; a map with only 日付 and
金額 files successfully with vendor component `不明`. -/
theorem c10_vendor_fallback_witness :
    (manage_processed_receipt_files ⟨["x/c.pdf"], none, false, false, false⟩ "r1" "x/c.pdf"
        (some [("金額", Json.str "1")]) "o" "l" "s").1 =
      .error
        "ERROR: Extracted data missing essential fields (日付 or 金額) for renaming." ∧
    vendorFromData [("日付", Json.str "20250101"), ("金額", Json.str "1000")] =
      some "不明" ∧
    isSuccess (manage_processed_receipt_files ⟨["x/d.pdf"], none, false, false, false⟩
        "r2" "x/d.pdf" (some [("日付", Json.str "20250101"), ("金額", Json.str "1000")])
        "o" "l" "s").1 = true := by
  refine ⟨?_, ?_, ?_⟩
  · exact c10_vendor_fallback.1 ⟨["x/c.pdf"], none, false, false, false⟩ "r1" "x/c.pdf"
      "o" "l" "s" [("金額", Json.str "1")] rfl
  · exact (c10_vendor_fallback.2 ⟨["x/d.pdf"], none, false, false, false⟩ "r2" "x/d.pdf"
      "o" "l" "s" [("日付", Json.str "20250101"), ("金額", Json.str "1000")] rfl
      (Or.inl rfl)).1
  · exact (c10_vendor_fallback.2 ⟨["x/d.pdf"], none, false, false, false⟩ "r2" "x/d.pdf"
      "o" "l" "s" [("日付", Json.str "20250101"), ("金額", Json.str "1000")] rfl
      (Or.inl rfl)).2 (by simp) (by simp [loadMaster]) rfl rfl rfl

end ReceiptAgent
